import Mathlib

/-!
Verification of the AI-Expense-Tracker backend core (src/backend/auth.py,
src/backend/main.py, src/backend/models.py) against its specification.

The Python source is shallowly embedded: pure functions become Lean
functions, the database becomes an explicit list of records threaded
through each handler, and code that can raise returns `Except`.  Library
collaborators that are not part of the repository (bcrypt, hashlib,
pandas, the jose JWT encoder) are modelled by small executable Lean
functions that keep exactly the behaviour the repository code relies on;
each such model carries a doc comment saying what is kept and what is
abstracted.
-/

namespace ET

/-! ## Byte-level model of Python strings -/

/-- UTF-8 encoding of one code point as its list of byte values: model of
Python `str.encode("utf-8")` for a single character. -/
def utf8EncodeCharBytes (c : Char) : List Nat :=
  let n := c.toNat
  if n < 128 then [n]
  else if n < 2048 then [192 + n / 64, 128 + n % 64]
  else if n < 65536 then [224 + n / 4096, 128 + n / 64 % 64, 128 + n % 64]
  else [240 + n / 262144, 128 + n / 4096 % 64, 128 + n / 64 % 64, 128 + n % 64]

/-- UTF-8 encoding of a whole string as a byte list: model of Python
`password.encode("utf-8")` in src/backend/auth.py. -/
def utf8Bytes (s : String) : List Nat :=
  s.data.foldr (fun c acc => utf8EncodeCharBytes c ++ acc) []

/-- A Python exception relevant to the embedded code paths. -/
inductive PyError
  | valueError
deriving DecidableEq

/-! ## Model of the bcrypt and hashlib libraries (collaborators, not
repository code)

The claims checked against `hash_password`/`verify_password` depend only
on these facts about the libraries, which the models keep:
  * `hashlib.sha256(b).digest()` is a deterministic function of `b` with a
    fixed 32-byte output;
  * `bcrypt.hashpw(pw, salt)` derives its output deterministically from
    the salt and the first 72 bytes of `pw`, and serialises salt and
    derived key into one recognisable hash string;
  * `bcrypt.checkpw(pw, h)` parses the salt back out of `h`, re-derives
    the key from `pw`, and compares; on a string that is not a
    well-formed bcrypt hash it raises `ValueError` ("Invalid salt").
The actual compression functions are abstracted by simple deterministic
stand-ins. -/

/-- Model of `hashlib.sha256(b).digest()`: a deterministic 32-byte digest.
Only determinism and the fixed 32-byte output length are relied upon. -/
def sha256Digest (b : List Nat) : List Nat :=
  (List.range 32).map (fun i => b.foldl (fun a x => (a * 31 + x + 1) % 256) i)

/-- Model of bcrypt's key derivation: deterministic in the salt and the
first 72 bytes of the password (bcrypt ignores bytes past 72). -/
def bcryptKdf (pw : List Nat) (salt : Nat) : List Nat :=
  salt % 256 :: (pw.take 72).map (fun b => (b + salt) % 256)

/-- Model of `bcrypt.hashpw(pw, salt)`: the serialised hash, a byte string
holding a recognisable prefix, the salt, and the derived key. -/
def bcryptHashpw (pw : List Nat) (salt : Nat) : List Nat :=
  36 :: 50 :: 98 :: 36 :: salt :: 36 :: bcryptKdf pw salt

/-- Salt/key extraction from a stored bcrypt hash; `none` models a string
that is not a well-formed bcrypt hash. -/
def bcryptParse : List Nat → Option (Nat × List Nat)
  | 36 :: 50 :: 98 :: 36 :: salt :: 36 :: rest => some (salt, rest)
  | _ => none

/-- Model of `bcrypt.checkpw(pw, h)`: re-derives the key under the stored
salt and compares.  On a malformed stored hash the real library raises
`ValueError` ("Invalid salt"); that is the `.error .valueError` branch. -/
def bcryptCheckpw (pw h : List Nat) : Except PyError Bool :=
  match bcryptParse h with
  | none => .error .valueError
  | some (salt, key) => .ok (bcryptKdf pw salt == key)

/-! ## src/backend/auth.py -/

/-- `hash_password` (src/backend/auth.py lines 20-33).  The fresh random
salt from `bcrypt.gensalt()` is the explicit `saltRand` parameter.  Stored
hashes are kept at the byte level: the final `.decode("utf-8")` paired
with `verify_password`'s re-`.encode("utf-8")` is the identity on these
bytes, so both are elided. -/
def hash_password (password : String) (saltRand : Nat) : List Nat :=
  let password_bytes := utf8Bytes password
  let password_bytes :=
    if password_bytes.length > 72 then sha256Digest password_bytes else password_bytes
  bcryptHashpw password_bytes saltRand

/-- `verify_password` (src/backend/auth.py lines 35-45): applies the same
length-conditional SHA-256 pre-hash to the plaintext, then delegates to
`bcrypt.checkpw`, whose `ValueError` on a malformed stored hash
propagates out of the function uncaught. -/
def verify_password (plain : String) (hashed : List Nat) : Except PyError Bool :=
  let plain_bytes := utf8Bytes plain
  let plain_bytes :=
    if plain_bytes.length > 72 then sha256Digest plain_bytes else plain_bytes
  bcryptCheckpw plain_bytes hashed

/-- Constant from src/backend/auth.py line 16; defined there and never
used by any call site. -/
def ACCESS_TOKEN_EXPIRE_MINUTES : Nat := 30

/-- The JWT payload produced by `create_access_token`: the data dict
(here only the "sub" claim is ever passed) plus the "exp" claim.  Times
are seconds; signing/serialisation by jose is irrelevant to the claims
and elided. -/
structure Token where
  sub : String
  exp : Nat
deriving DecidableEq

/-- `create_access_token` (src/backend/auth.py lines 47-51):
`expire = datetime.utcnow() + (expires_delta or timedelta(minutes=15))`.
Python `or` falls back to the 15-minute default both when
`expires_delta` is `None` and when it is the falsy zero timedelta. -/
def create_access_token (sub : String) (now : Nat) (expires_delta : Option Nat) : Token :=
  { sub := sub,
    exp := now + (match expires_delta with
      | none => 15 * 60
      | some d => if d = 0 then 15 * 60 else d) }

/-- The token issued by the login endpoint (src/backend/main.py line 77):
`create_access_token({"sub": db_user.email})`, with no `expires_delta`
argument. -/
def loginToken (email : String) (now : Nat) : Token :=
  create_access_token email now none

/-! ## Model of pandas cells and Python coercions

A CSV cell as produced by `pd.read_csv`: `none` models pandas NaN, the
value an empty CSV field parses to; `some s` models a textual value.
Pandas dtype inference for all-numeric columns is not modelled — no claim
depends on the numeric formatting it would introduce. -/

/-- One CSV cell. -/
abbrev Cell := Option String

/-- Python `str()` applied to a cell: `str` of pandas NaN is the literal
string "nan". -/
def pyStr : Cell → String
  | none => "nan"
  | some s => s

/-- A Python float value: a finite decimal `num / 10 ^ pow`, or NaN.
Binary floating point rounding is not modelled; no claim depends on it,
only on parse success/failure and on order comparisons of parsed
decimals, which agree with the float ones on the inputs exercised. -/
inductive PyFloat
  | nan
  | dec (num : Int) (pow : Nat)
deriving DecidableEq

/-- Numeric `a ≤ b` on float models by cross-multiplication; any
comparison involving NaN is false, as for IEEE floats. -/
def PyFloat.leB : PyFloat → PyFloat → Bool
  | .dec n1 p1, .dec n2 p2 => decide (n1 * (10 : Int) ^ p2 ≤ n2 * (10 : Int) ^ p1)
  | _, _ => false

def PyFloat.negate : PyFloat → PyFloat
  | .nan => .nan
  | .dec n p => .dec (-n) p

def digitsToNat (cs : List Char) : Nat :=
  cs.foldl (fun a c => a * 10 + (c.toNat - 48)) 0

def isPyWs (c : Char) : Bool :=
  c == ' ' || c == '\t' || c == '\n' || c == '\r'

/-- Leading and trailing whitespace removal (Python `float` strips it). -/
def stripChars (cs : List Char) : List Char :=
  ((cs.dropWhile isPyWs).reverse.dropWhile isPyWs).reverse

/-- Unsigned decimal literal: digits with an optional fraction part and at
least one digit overall. -/
def parseDecimal (cs : List Char) : Except PyError PyFloat :=
  match cs.splitOn '.' with
  | [ip] =>
    if ip ≠ [] ∧ ip.all Char.isDigit then .ok (.dec (digitsToNat ip) 0)
    else .error .valueError
  | [ip, fp] =>
    if (ip ++ fp) ≠ [] ∧ ip.all Char.isDigit ∧ fp.all Char.isDigit then
      .ok (.dec (digitsToNat (ip ++ fp)) fp.length)
    else .error .valueError
  | _ => .error .valueError

/-- Model of Python `float(s)` on its plain decimal forms: optional sign,
digits, optional fraction.  Exponent forms, "inf"/"nan" words and digit
underscores are not modelled — no claim exercises them.  Anything else
raises `ValueError`. -/
def pyFloatOfChars (cs : List Char) : Except PyError PyFloat :=
  match stripChars cs with
  | '+' :: rest => parseDecimal rest
  | '-' :: rest => (parseDecimal rest).map PyFloat.negate
  | rest => parseDecimal rest

/-- Python `float()` on a cell: `float(NaN)` is NaN and raises nothing;
on text it parses or raises `ValueError`. -/
def pyFloat : Cell → Except PyError PyFloat
  | none => .ok .nan
  | some s => pyFloatOfChars s.data

/-- A calendar date as produced by `pd.to_datetime(...).date()`. -/
structure PyDate where
  year : Nat
  month : Nat
  day : Nat
deriving DecidableEq

/-- Order key for dates; lexicographic on (year, month, day). -/
def PyDate.key (d : PyDate) : Nat :=
  d.year * 10000 + d.month * 100 + d.day

def isLeap (y : Nat) : Bool :=
  (y % 4 == 0 && y % 100 != 0) || y % 400 == 0

def daysInMonth (y m : Nat) : Nat :=
  if m = 2 then (if isLeap y then 29 else 28)
  else if m = 4 ∨ m = 6 ∨ m = 9 ∨ m = 11 then 30
  else 31

/-- Model of `pd.to_datetime(cell).date()` restricted to the ISO
YYYY-MM-DD form with a real calendar-validity check.  Pandas accepts
further textual forms; no claim depends on them, and every string outside
the modelled form — as well as the NaN cell — takes the failure branch,
which the endpoint turns into its invalid-date error. -/
def parseDate : Cell → Option PyDate
  | none => none
  | some s =>
    match (stripChars s.data).splitOn '-' with
    | [ys, ms, ds] =>
      if ys ≠ [] ∧ ms ≠ [] ∧ ds ≠ [] ∧
          ys.all Char.isDigit ∧ ms.all Char.isDigit ∧ ds.all Char.isDigit then
        let y := digitsToNat ys
        let m := digitsToNat ms
        let d := digitsToNat ds
        if 1 ≤ m ∧ m ≤ 12 ∧ 1 ≤ d ∧ d ≤ daysInMonth y m then some ⟨y, m, d⟩
        else none
      else none
    | _ => none

/-- Python `s.lower()` / SQL `lower`, ASCII case folding. -/
def lowerStr (s : String) : String :=
  ⟨s.data.map Char.toLower⟩

/-! ## src/backend/models.py and the transaction ingestion pipeline -/

/-- `models.Transaction` (src/backend/models.py lines 32-53), the fields
the core reads and writes; `id`/`created_at` are server-assigned and
touched by no claim. -/
structure Transaction where
  user_id : Nat
  amount : PyFloat
  type : String
  category : String
  description : String
  transaction_date : PyDate
deriving DecidableEq

/-- One parsed CSV data row: the cells keyed by column name.  A DataFrame
row carries every column of the frame. -/
abbrev Row := List (String × Cell)

/-- `row[c]` on a pandas row.  Rows of a parsed frame always carry every
column, so the `none` default is unreachable on frames `read_csv`
produces. -/
def cellAt (row : Row) (c : String) : Cell :=
  (row.lookup c).getD none

/-- `row.get(c, "")` (src/backend/main.py line 197): the `""` default
applies only when the column label is absent from the row. -/
def cellGet (row : Row) (c : String) : Cell :=
  (row.lookup c).getD (some "")

/-- A parsed DataFrame: column names and data rows. -/
structure Frame where
  cols : List String
  rows : List Row

/-- The errors the upload endpoint can finish with: the four
`HTTPException(400, ...)` raises of src/backend/main.py lines 160-190,
plus the uncaught `ValueError` that `float(row["amount"])` on line 194
can raise (surfaced as a 500, with no row detail). -/
inductive UploadError
  | onlyCsvAllowed
  | invalidCsv
  | missingColumns (required : List String)
  | invalidType (reportedRow : Nat)
  | invalidDate (reportedRow : Nat)
  | uncaughtValueError
deriving DecidableEq

/-- `required_cols` (src/backend/main.py line 168). -/
def required_cols : List String :=
  ["amount", "type", "category", "description", "transaction_date"]

/-- One iteration of the ingestion loop (src/backend/main.py lines
176-200): lower-cased type must be credit/debit, the date must parse,
then the `models.Transaction` record is built — at which point
`float(row["amount"])` runs unguarded, so its `ValueError` propagates
uncaught.  `idx` is the 0-based `df.iterrows()` index; reported row
numbers are `idx + 2`. -/
def buildTx (uid idx : Nat) (row : Row) : Except UploadError Transaction :=
  let tx_type := lowerStr (pyStr (cellAt row "type"))
  if tx_type ≠ "credit" ∧ tx_type ≠ "debit" then .error (.invalidType (idx + 2))
  else
    match parseDate (cellAt row "transaction_date") with
    | none => .error (.invalidDate (idx + 2))
    | some tx_date =>
      match pyFloat (cellAt row "amount") with
      | .error _ => .error .uncaughtValueError
      | .ok amt =>
        .ok { user_id := uid, amount := amt, type := tx_type,
              category := pyStr (cellAt row "category"),
              description := pyStr (cellGet row "description"),
              transaction_date := tx_date }

/-- The whole `for idx, row in df.iterrows()` loop: either the list of
transactions accumulated over all rows, or the error of the first row
whose iteration raises. -/
def processRows (uid : Nat) : Nat → List Row → Except UploadError (List Transaction)
  | _, [] => .ok []
  | idx, row :: rest =>
    match buildTx uid idx row with
    | .error e => .error e
    | .ok tx =>
      match processRows uid (idx + 1) rest with
      | .error e => .error e
      | .ok txs => .ok (tx :: txs)

/-- Does the filename end in ".csv"? (`file.filename.endswith(".csv")`,
src/backend/main.py line 160). -/
def startsWithChars : List Char → List Char → Bool
  | [], _ => true
  | _ :: _, [] => false
  | a :: as, b :: bs => a == b && startsWithChars as bs

def endsWithCsv (s : String) : Bool :=
  startsWithChars ['v', 's', 'c', '.'] s.data.reverse

instance {ε α : Type} [DecidableEq ε] [DecidableEq α] : DecidableEq (Except ε α) := fun a b =>
  match a, b with
  | .error e1, .error e2 =>
    match decEq e1 e2 with
    | isTrue h => isTrue (by rw [h])
    | isFalse h => isFalse (fun hc => h (by injection hc))
  | .error _, .ok _ => isFalse (fun hc => Except.noConfusion hc)
  | .ok _, .error _ => isFalse (fun hc => Except.noConfusion hc)
  | .ok a1, .ok a2 =>
    match decEq a1 a2 with
    | isTrue h => isTrue (by rw [h])
    | isFalse h => isFalse (fun hc => h (by injection hc))

/-- Result of one call to the upload endpoint: the transaction table
afterwards, and the HTTP-level outcome (inserted count or error). -/
structure UploadOutcome where
  db : List Transaction
  response : Except UploadError Nat
deriving DecidableEq

/-- `upload_transactions_csv` (src/backend/main.py lines 154-208).
`frame = none` models `pd.read_csv` raising on an unparseable file.  The
`db.add_all(transactions); db.commit()` after the loop is the batch
append; on any raise inside the loop nothing has been added, so the
table is returned unchanged. -/
def upload_transactions_csv (uid : Nat) (filename : String) (frame : Option Frame)
    (db : List Transaction) : UploadOutcome :=
  if ¬ endsWithCsv filename then { db := db, response := .error .onlyCsvAllowed }
  else
    match frame with
    | none => { db := db, response := .error .invalidCsv }
    | some f =>
      if ¬ required_cols.all (fun c => f.cols.contains c) then
        { db := db, response := .error (.missingColumns required_cols) }
      else
        match processRows uid 0 f.rows with
        | .error e => { db := db, response := .error e }
        | .ok txs => { db := db ++ txs, response := .ok txs.length }

/-! ## Query filter engine (src/backend/main.py lines 213-247) -/

/-- Does `f` hold of some suffix of the list? -/
def anySuffix (f : List Char → Bool) : List Char → Bool
  | [] => f []
  | t :: ts => f (t :: ts) || anySuffix f ts

/-- SQL LIKE pattern matching over the whole text: % matches any run of
characters, _ matches exactly one, every other pattern character matches
itself.  (SQL LIKE without an ESCAPE clause, as SQLAlchemy emits for
`ilike`.) -/
def likeMatch : List Char → List Char → Bool
  | [], ts => ts.isEmpty
  | '%' :: ps, ts => anySuffix (likeMatch ps) ts
  | '_' :: ps, ts =>
    (match ts with
     | [] => false
     | _ :: ts2 => likeMatch ps ts2)
  | p :: ps, ts =>
    (match ts with
     | [] => false
     | t :: ts2 => p == t && likeMatch ps ts2)

/-- Is `needle` a contiguous substring of `hay`? -/
def containsSub (needle : List Char) : List Char → Bool
  | [] => needle.isEmpty
  | c :: rest => startsWithChars needle (c :: rest) || containsSub needle rest

/-- `Transaction.category.ilike(f"%{category}%")` (src/backend/main.py
line 232): case-insensitive SQL LIKE — both sides lower-cased — with the
supplied value wrapped in two % wildcards and any % or _ inside the
value still active as wildcards. -/
def ilikeSub (c : String) (text : String) : Bool :=
  likeMatch (('%' :: c.data ++ ['%']).map Char.toLower) (text.data.map Char.toLower)

/-- The query parameters of GET /my-transactions, all optional.  The
route declares `type` with the regex `^(credit|debit)$`, so the handler
only ever sees `none`, "credit" or "debit" for it. -/
structure TxFilters where
  type? : Option String := none
  category? : Option String := none
  start_date? : Option PyDate := none
  end_date? : Option PyDate := none
  min_amount? : Option PyFloat := none
  max_amount? : Option PyFloat := none
deriving DecidableEq

/-- One optional text-filter stage, Python `if v: query =
query.filter(...)`: `None` and — by truthiness — a supplied empty string
both skip the filter. -/
def applyTextFilter (o : Option String) (p : String → Transaction → Bool)
    (q : List Transaction) : List Transaction :=
  match o with
  | none => q
  | some s => if s == "" then q else q.filter (p s)

/-- One optional non-text filter stage: dates are always-truthy objects
and the amounts are guarded with `is not None`, so any supplied value
applies the filter. -/
def applyOptFilter {β : Type} (o : Option β) (p : β → Transaction → Bool)
    (q : List Transaction) : List Transaction :=
  match o with
  | none => q
  | some x => q.filter (p x)

/-- ORDER BY transaction_date DESC (src/backend/main.py line 246) as a
relation on transactions. -/
def dateDesc (a b : Transaction) : Prop :=
  b.transaction_date.key ≤ a.transaction_date.key

instance : DecidableRel dateDesc :=
  fun a b => Nat.decLe b.transaction_date.key a.transaction_date.key

instance : IsTotal Transaction dateDesc :=
  ⟨fun a b => Nat.le_total b.transaction_date.key a.transaction_date.key⟩

instance : IsTrans Transaction dateDesc :=
  ⟨fun _ _ _ h1 h2 => Nat.le_trans h2 h1⟩

/-- `get_my_transactions` (src/backend/main.py lines 213-247): the
owner-scoping filter first, then the six optional filters in source
order (innermost applied first below), then ORDER BY transaction_date
DESC.  SQL leaves the order of equal-date rows unspecified; the stable
insertion sort is one refinement of it, and no claim depends on the tie
order. -/
def get_my_transactions (uid : Nat) (f : TxFilters) (db : List Transaction) :
    List Transaction :=
  List.insertionSort dateDesc
    (applyOptFilter f.max_amount? (fun a2 t => PyFloat.leB t.amount a2)
      (applyOptFilter f.min_amount? (fun a1 t => PyFloat.leB a1 t.amount)
        (applyOptFilter f.end_date? (fun d2 t => decide (t.transaction_date.key ≤ d2.key))
          (applyOptFilter f.start_date? (fun d1 t => decide (d1.key ≤ t.transaction_date.key))
            (applyTextFilter f.category? (fun c t => ilikeSub c t.category)
              (applyTextFilter f.type? (fun ty t => t.type == ty)
                (db.filter (fun t => t.user_id == uid))))))))

/-- The predicate one text-filter stage keeps. -/
def textPred (o : Option String) (p : String → Transaction → Bool) (t : Transaction) : Bool :=
  match o with
  | none => true
  | some s => s == "" || p s t

/-- The predicate one non-text filter stage keeps. -/
def optPred {β : Type} (o : Option β) (p : β → Transaction → Bool) (t : Transaction) : Bool :=
  match o with
  | none => true
  | some x => p x t

/-- The conjunction of exactly the checks the code's query pipeline
applies (owner scoping, truthiness-skipped text filters, LIKE category
semantics). -/
def matchesFiltersCode (uid : Nat) (f : TxFilters) (t : Transaction) : Bool :=
  (t.user_id == uid) &&
  textPred f.type? (fun ty t => t.type == ty) t &&
  textPred f.category? (fun c t => ilikeSub c t.category) t &&
  optPred f.start_date? (fun d1 t => decide (d1.key ≤ t.transaction_date.key)) t &&
  optPred f.end_date? (fun d2 t => decide (t.transaction_date.key ≤ d2.key)) t &&
  optPred f.min_amount? (fun a1 t => PyFloat.leB a1 t.amount) t &&
  optPred f.max_amount? (fun a2 t => PyFloat.leB t.amount a2) t

/-- The per-transaction filter predicate with the code's category
semantics (case-insensitive LIKE with the value wrapped in %s): type
exact match, inclusive date bounds, inclusive amount bounds. -/
def matchesFiltersLike (f : TxFilters) (t : Transaction) : Bool :=
  optPred f.type? (fun ty t => t.type == ty) t &&
  optPred f.category? (fun c t => ilikeSub c t.category) t &&
  optPred f.start_date? (fun d1 t => decide (d1.key ≤ t.transaction_date.key)) t &&
  optPred f.end_date? (fun d2 t => decide (t.transaction_date.key ≤ d2.key)) t &&
  optPred f.min_amount? (fun a1 t => PyFloat.leB a1 t.amount) t &&
  optPred f.max_amount? (fun a2 t => PyFloat.leB t.amount a2) t

/-- Modelled from the spec (section 4.5 wording), for comparison with
the code only: category interpreted as a case-insensitive SUBSTRING
match, the other filters as in the code. -/
def matchesFiltersSpec (f : TxFilters) (t : Transaction) : Bool :=
  optPred f.type? (fun ty t => t.type == ty) t &&
  optPred f.category? (fun c t => containsSub (lowerStr c).data (lowerStr t.category).data) t &&
  optPred f.start_date? (fun d1 t => decide (d1.key ≤ t.transaction_date.key)) t &&
  optPred f.end_date? (fun d2 t => decide (t.transaction_date.key ≤ d2.key)) t &&
  optPred f.min_amount? (fun a1 t => PyFloat.leB a1 t.amount) t &&
  optPred f.max_amount? (fun a2 t => PyFloat.leB t.amount a2) t

/-! ## Registration (src/backend/main.py lines 47-65) -/

/-- `models.User` (src/backend/models.py lines 8-17). -/
structure UserRec where
  id : Nat
  name : String
  username : String
  email : String
  hashed_password : List Nat
deriving DecidableEq

/-- `schemas.UserCreate` (src/backend/schemas.py lines 3-7). -/
structure UserCreate where
  name : String
  username : String
  email : String
  password : String
deriving DecidableEq

/-- The two duplicate errors of the register endpoint
(`HTTPException(400, "Username already exists" / "Email already exists")`). -/
inductive RegError
  | usernameExists
  | emailExists
deriving DecidableEq

/-- Result of one call to the register endpoint: the user table
afterwards and the HTTP-level outcome. -/
structure RegOutcome where
  users : List UserRec
  response : Except RegError UserRec
deriving DecidableEq

/-- `register` (src/backend/main.py lines 47-65): both duplicate lookups
run, then the username check is evaluated before the email check; on
success the new user is appended (commit).  `newId` models the
autoincrement id, `saltRand` the salt drawn inside `hash_password`. -/
def register (users : List UserRec) (u : UserCreate) (newId saltRand : Nat) : RegOutcome :=
  let existing_username := users.find? (fun x => x.username == u.username)
  let existing_email := users.find? (fun x => x.email == u.email)
  if existing_username.isSome then { users := users, response := .error .usernameExists }
  else if existing_email.isSome then { users := users, response := .error .emailExists }
  else
    let new_user : UserRec :=
      { id := newId, name := u.name, username := u.username, email := u.email,
        hashed_password := hash_password u.password saltRand }
    { users := users ++ [new_user], response := .ok new_user }

/-! ## Concrete rows and frames used as evaluation inputs -/

/-- A fully valid data row (the first row of the spec's ingestion
example). -/
def rowCredit : Row :=
  [("amount", some "100"), ("type", some "credit"), ("category", some "Food"),
   ("description", some ""), ("transaction_date", some "2024-01-01")]

/-- A row whose type is the invalid "XYZ" (the second row of the spec's
ingestion example); `df.iterrows()` index 1, reported as row 3. -/
def rowBadType : Row :=
  [("amount", some "50"), ("type", some "XYZ"), ("category", some "Food"),
   ("description", some ""), ("transaction_date", some "2024-01-02")]

/-- A row with valid type and date whose amount does not parse as a
float. -/
def rowBadAmount : Row :=
  [("amount", some "abc"), ("type", some "credit"), ("category", some "Food"),
   ("description", some "x"), ("transaction_date", some "2024-01-01")]

/-- A row whose description field is empty: `read_csv` parses the empty
field to NaN. -/
def rowEmptyDescr : Row :=
  [("amount", some "100"), ("type", some "credit"), ("category", some "Food"),
   ("description", none), ("transaction_date", some "2024-01-01")]

def frameBadType : Frame := { cols := required_cols, rows := [rowCredit, rowBadType] }

def frameBadAmount : Frame := { cols := required_cols, rows := [rowBadAmount] }

def frameEmptyDescr : Frame := { cols := required_cols, rows := [rowEmptyDescr] }

/-- A frame whose column set lacks "category". -/
def frameNoCategory : Frame :=
  { cols := ["amount", "type", "description", "transaction_date"], rows := [rowCredit] }

/-- A credit transaction owned by user 1 with category "Food". -/
def txFood : Transaction :=
  { user_id := 1, amount := .dec 100 0, type := "credit", category := "Food",
    description := "", transaction_date := { year := 2024, month := 1, day := 1 } }

/-- No filters supplied. -/
def emptyFilters : TxFilters := {}

/-- Only the category filter, with a value containing the % wildcard. -/
def catFilterPct : TxFilters := { category? := some "F%d" }

/-- Only the type filter, with the value "debit". -/
def typeDebitFilter : TxFilters := { type? := some "debit" }

/-- Two stored users: the username of the first and the email of the
second will both collide with `dupBoth`. -/
def usersBoth : List UserRec :=
  [{ id := 1, name := "A", username := "alice", email := "alice@example.com",
     hashed_password := [] },
   { id := 2, name := "B", username := "bob", email := "bob@example.com",
     hashed_password := [] }]

/-- A registration request whose username and email each already belong
to (different) existing users. -/
def dupBoth : UserCreate :=
  { name := "C", username := "alice", email := "bob@example.com", password := "pw" }

end ET

namespace ET

/-! ## Helper lemmas about the ingestion loop -/

lemma processRows_ok_length (uid : Nat) :
    ∀ (rows : List Row) (idx : Nat) (txs : List Transaction),
      processRows uid idx rows = .ok txs → txs.length = rows.length
  | [], _, txs => by
    intro h
    simp only [processRows] at h
    simp at h
    simp [← h]
  | row :: rest, idx, txs => by
    intro h
    simp only [processRows] at h
    cases hb : buildTx uid idx row with
    | error e => rw [hb] at h; exact absurd h (by simp)
    | ok tx =>
      rw [hb] at h
      cases hr : processRows uid (idx + 1) rest with
      | error e => rw [hr] at h; exact absurd h (by simp)
      | ok txs2 =>
        rw [hr] at h
        have hlen := processRows_ok_length uid rest (idx + 1) txs2 hr
        simp at h
        simp [← h, hlen]

lemma processRows_error_first (uid : Nat) :
    ∀ (rows : List Row) (idx : Nat) (e : UploadError),
      processRows uid idx rows = .error e →
      ∃ i, ∃ hi : i < rows.length,
        buildTx uid (idx + i) (rows.get ⟨i, hi⟩) = .error e ∧
        ∀ j, ∀ hj : j < rows.length, j < i →
          ∃ tx, buildTx uid (idx + j) (rows.get ⟨j, hj⟩) = .ok tx
  | [], _, e => by intro h; simp [processRows] at h
  | row :: rest, idx, e => by
    intro h
    simp only [processRows] at h
    cases hb : buildTx uid idx row with
    | error e0 =>
      rw [hb] at h
      simp at h
      subst h
      refine ⟨0, Nat.succ_pos _, by simpa using hb, ?_⟩
      intro j hj hj0
      exact absurd hj0 (Nat.not_lt_zero j)
    | ok tx =>
      rw [hb] at h
      cases hr : processRows uid (idx + 1) rest with
      | error e1 =>
        rw [hr] at h
        simp at h
        subst h
        obtain ⟨i, hi, hbe, hall⟩ := processRows_error_first uid rest (idx + 1) e1 hr
        refine ⟨i + 1, Nat.succ_lt_succ hi, ?_, ?_⟩
        · show buildTx uid (idx + (i + 1)) (rest.get ⟨i, hi⟩) = .error e1
          have harith : idx + (i + 1) = idx + 1 + i := by omega
          rw [harith]
          exact hbe
        · intro j hj hji
          cases j with
          | zero => exact ⟨tx, by simpa using hb⟩
          | succ k =>
            have hk : k < rest.length := Nat.lt_of_succ_lt_succ hj
            obtain ⟨tx2, h2⟩ := hall k hk (Nat.lt_of_succ_lt_succ hji)
            refine ⟨tx2, ?_⟩
            show buildTx uid (idx + (k + 1)) (rest.get ⟨k, hk⟩) = .ok tx2
            have harith : idx + (k + 1) = idx + 1 + k := by omega
            rw [harith]
            exact h2
      | ok txs2 =>
        rw [hr] at h
        exact absurd h (by simp)

/-! ## Theorems: ingestion pipeline -/

/-- C2: for every upload that passes the extension, parse and
required-column checks, either some row fails and the endpoint surfaces
the error of the first failing row while the transaction table is left
unchanged (already-validated earlier rows are discarded), or every row
builds a transaction and the whole batch is appended with the returned
count equal to the number of data rows. -/
theorem C2_all_or_nothing (uid : Nat) (filename : String) (f : Frame)
    (db : List Transaction)
    (hcsv : endsWithCsv filename = true)
    (hcols : required_cols.all (fun c => f.cols.contains c) = true) :
    (∀ e, (upload_transactions_csv uid filename (some f) db).response = .error e →
        (upload_transactions_csv uid filename (some f) db).db = db ∧
        ∃ i, ∃ hi : i < f.rows.length,
          buildTx uid i (f.rows.get ⟨i, hi⟩) = .error e ∧
          ∀ j, ∀ hj : j < f.rows.length, j < i →
            ∃ tx, buildTx uid j (f.rows.get ⟨j, hj⟩) = .ok tx) ∧
    (∀ n, (upload_transactions_csv uid filename (some f) db).response = .ok n →
        n = f.rows.length ∧
        ∃ txs, processRows uid 0 f.rows = .ok txs ∧
          (upload_transactions_csv uid filename (some f) db).db = db ++ txs ∧
          txs.length = f.rows.length) := by
  have hep : upload_transactions_csv uid filename (some f) db =
      (match processRows uid 0 f.rows with
       | .error e => { db := db, response := .error e }
       | .ok txs => { db := db ++ txs, response := .ok txs.length }) := by
    simp only [upload_transactions_csv, hcsv, hcols]
    simp
  rw [hep]
  cases hr : processRows uid 0 f.rows with
  | error e0 =>
    constructor
    · intro e he
      simp at he
      subst he
      refine ⟨rfl, ?_⟩
      obtain ⟨i, hi, hbe, hall⟩ := processRows_error_first uid f.rows 0 e0 hr
      refine ⟨i, hi, by simpa using hbe, ?_⟩
      intro j hj hji
      obtain ⟨tx, htx⟩ := hall j hj hji
      exact ⟨tx, by simpa using htx⟩
    · intro n hn
      exact absurd hn (by simp)
  | ok txs =>
    constructor
    · intro e he
      exact absurd he (by simp)
    · intro n hn
      simp at hn
      have hlen := processRows_ok_length uid f.rows 0 txs hr
      exact ⟨by omega, txs, rfl, rfl, hlen⟩

/-- C2 witness: the spec's example upload (valid credit row, then a row
with type "XYZ") aborts with the invalid-type error of the second data
row (reported row number 3 = iterrows index 1 + 2) and persists
nothing. -/
theorem C2_all_or_nothing_witness :
    endsWithCsv "tx.csv" = true ∧
    required_cols.all (fun c => frameBadType.cols.contains c) = true ∧
    ((upload_transactions_csv 7 "tx.csv" (some frameBadType) []).db = [] ∧
      ∃ i, ∃ hi : i < frameBadType.rows.length,
        buildTx 7 i (frameBadType.rows.get ⟨i, hi⟩) = .error (.invalidType 3) ∧
        ∀ j, ∀ hj : j < frameBadType.rows.length, j < i →
          ∃ tx, buildTx 7 j (frameBadType.rows.get ⟨j, hj⟩) = .ok tx) :=
  ⟨by decide, by decide,
    (C2_all_or_nothing 7 "tx.csv" frameBadType [] (by decide) (by decide)).1
      (.invalidType 3) (by decide)⟩

/-- C5 evaluation at the failing input: a row with valid type and date
whose amount is the non-numeric "abc" makes the endpoint abort with the
uncaught `ValueError` from `float(row["amount"])` — not with a row-scoped
invalid-amount validation error (no such error kind exists in the code) —
and nothing is persisted. -/
theorem C5_unguarded_amount :
    upload_transactions_csv 1 "tx.csv" (some frameBadAmount) [] =
      { db := [], response := .error .uncaughtValueError } := by
  rfl

/-- C8: a parsed .csv upload whose column set does not contain the whole
required set fails with the missing-columns error naming the required
set, whatever the data rows are, and the table is untouched: no row-level
error can be reported for such a file. -/
theorem C8_missing_columns (uid : Nat) (filename : String) (f : Frame)
    (db : List Transaction)
    (hcsv : endsWithCsv filename = true)
    (hcols : required_cols.all (fun c => f.cols.contains c) = false) :
    upload_transactions_csv uid filename (some f) db =
      { db := db, response := .error (.missingColumns required_cols) } := by
  simp only [upload_transactions_csv, hcsv, hcols]
  simp

/-- C8 witness: a frame missing the "category" column is rejected with
the missing-columns error. -/
theorem C8_missing_columns_witness :
    endsWithCsv "tx.csv" = true ∧
    required_cols.all (fun c => frameNoCategory.cols.contains c) = false ∧
    upload_transactions_csv 3 "tx.csv" (some frameNoCategory) [] =
      { db := [], response := .error (.missingColumns required_cols) } :=
  ⟨by decide, by decide,
    C8_missing_columns 3 "tx.csv" frameNoCategory [] (by decide) (by decide)⟩

/-- C9 evaluation at the failing input: an otherwise-valid row whose
description field is empty is ingested with description "nan" — the
string `str()` makes of the pandas NaN the empty field parsed to — not
with the empty string. -/
theorem C9_empty_description_is_nan :
    ((upload_transactions_csv 1 "tx.csv" (some frameEmptyDescr) []).db.map
        (fun t => t.description)) = ["nan"] ∧
      ("nan" : String) ≠ "" := by
  constructor
  · rfl
  · decide

/-! ## Theorems: credential hasher and token issuer -/

/-- C1: for every password string, including those whose UTF-8 encoding
exceeds 72 bytes, verifying a password against its own freshly produced
hash succeeds: `verify_password` applies the identical pre-hash decision
(SHA-256 exactly when the UTF-8 byte length is greater than 72) that
`hash_password` applied, so the round trip returns true for every salt
the hash was produced with. -/
theorem C1_verify_roundtrip (p : String) (saltRand : Nat) :
    verify_password p (hash_password p saltRand) = .ok true := by
  simp [verify_password, hash_password, bcryptCheckpw, bcryptHashpw, bcryptParse]

/-- C4 evaluation at the failing input: the token issued by the login
endpoint at time `t` expires at `t + 15 * 60` seconds, the generic
15-minute default, not at `t + ACCESS_TOKEN_EXPIRE_MINUTES * 60`
(the 30-minute constant is never passed by the login call site). -/
theorem C4_login_uses_default_ttl :
    (loginToken "alice@example.com" 1000).exp = 1000 + 15 * 60 ∧
      (loginToken "alice@example.com" 1000).exp ≠ 1000 + ACCESS_TOKEN_EXPIRE_MINUTES * 60 := by
  decide

/-- C6 evaluation at the failing input: on a stored hash that is not a
well-formed bcrypt hash, `verify_password` does not return a boolean; the
`ValueError` raised by `bcrypt.checkpw` propagates to the caller. -/
theorem C6_corrupt_hash_raises :
    verify_password "password123" (utf8Bytes "nothash") = .error .valueError := by
  rfl

/-! ## Helper lemmas about the query filter engine -/

lemma mem_applyTextFilter {o : Option String} {p : String → Transaction → Bool}
    {q : List Transaction} {t : Transaction} :
    t ∈ applyTextFilter o p q ↔ t ∈ q ∧ textPred o p t = true := by
  cases o with
  | none => simp [applyTextFilter, textPred]
  | some s =>
    by_cases hs : s == ""
    · simp [applyTextFilter, textPred, hs]
    · simp [applyTextFilter, textPred, hs, List.mem_filter]

lemma mem_applyOptFilter {β : Type} {o : Option β} {p : β → Transaction → Bool}
    {q : List Transaction} {t : Transaction} :
    t ∈ applyOptFilter o p q ↔ t ∈ q ∧ optPred o p t = true := by
  cases o with
  | none => simp [applyOptFilter, optPred]
  | some x => simp [applyOptFilter, optPred, List.mem_filter]

/-- Membership in the query result is membership in the table plus the
conjunction of exactly the checks the code applies. -/
lemma mem_get_my_transactions (uid : Nat) (f : TxFilters) (db : List Transaction)
    (t : Transaction) :
    t ∈ get_my_transactions uid f db ↔ t ∈ db ∧ matchesFiltersCode uid f t = true := by
  unfold get_my_transactions
  rw [List.mem_insertionSort, mem_applyOptFilter, mem_applyOptFilter, mem_applyOptFilter,
    mem_applyOptFilter, mem_applyTextFilter, mem_applyTextFilter, List.mem_filter]
  simp only [matchesFiltersCode, Bool.and_eq_true]
  tauto

lemma likeMatch_pct_any : ∀ ts, likeMatch ['%'] ts = true
  | [] => rfl
  | t :: ts => by
    show (likeMatch [] (t :: ts) || likeMatch ['%'] ts) = true
    rw [likeMatch_pct_any ts]
    simp

lemma likeMatch_pct_pct : ∀ ts, likeMatch ['%', '%'] ts = true
  | [] => rfl
  | t :: ts => by
    show (likeMatch ['%'] (t :: ts) || likeMatch ['%', '%'] ts) = true
    rw [likeMatch_pct_any (t :: ts)]
    simp

/-- The LIKE pattern built from an empty category value matches every
string, so skipping it (truthiness) and applying it coincide. -/
lemma ilikeSub_empty (s : String) : ilikeSub "" s = true := by
  have hp : (('%' :: ("" : String).data ++ ['%']).map Char.toLower) = ['%', '%'] := by decide
  unfold ilikeSub
  rw [hp, likeMatch_pct_pct]

/-- Under the route's type regex, the code's filter conjunction is owner
scoping plus the LIKE-semantics filter predicate. -/
lemma matchesFiltersCode_eq_like (uid : Nat) (f : TxFilters) (t : Transaction)
    (ht : f.type? = none ∨ f.type? = some "credit" ∨ f.type? = some "debit") :
    matchesFiltersCode uid f t = ((t.user_id == uid) && matchesFiltersLike f t) := by
  have hcat : textPred f.category? (fun c t => ilikeSub c t.category) t =
      optPred f.category? (fun c t => ilikeSub c t.category) t := by
    cases hc : f.category? with
    | none => rfl
    | some c =>
      by_cases hce : c == ""
      · have hceq : c = "" := by simpa using hce
        subst hceq
        simp [textPred, optPred, ilikeSub_empty]
      · simp [textPred, optPred, hce]
  have hty : textPred f.type? (fun ty t => t.type == ty) t =
      optPred f.type? (fun ty t => t.type == ty) t := by
    have hcr : (("credit" : String) == "") = false := by decide
    have hdb : (("debit" : String) == "") = false := by decide
    rcases ht with h | h | h <;> rw [h] <;> simp [textPred, optPred, hcr, hdb]
  simp only [matchesFiltersCode, matchesFiltersLike, hcat, hty, Bool.and_assoc]

/-! ## Theorems: query filter engine -/

/-- C3: every transaction the /my-transactions query returns is owned by
the calling user, whatever combination of optional filters was supplied;
the owner-scoping filter is unconditional. -/
theorem C3_owner_scoping (uid : Nat) (f : TxFilters) (db : List Transaction)
    (t : Transaction) (hmem : t ∈ get_my_transactions uid f db) :
    t.user_id = uid := by
  have h := ((mem_get_my_transactions uid f db t).1 hmem).2
  simp only [matchesFiltersCode, Bool.and_eq_true, beq_iff_eq] at h
  exact h.1.1.1.1.1.1

/-- C3 witness: with no filters, user 1's query over a table holding
their own transaction returns it, and its owner is user 1. -/
theorem C3_owner_scoping_witness :
    txFood ∈ get_my_transactions 1 emptyFilters [txFood] ∧ txFood.user_id = 1 :=
  ⟨by decide, C3_owner_scoping 1 emptyFilters [txFood] txFood (by decide)⟩

/-- C7 counterexample to the claim as stated: with the supplied category
filter "F%d" the query returns the "Food" transaction although "F%d" is
not a case-insensitive substring of "Food" — the % in the supplied value
acts as a SQL LIKE wildcard, so membership is not equivalent to the
spec's substring reading of the category filter. -/
theorem C7_substring_counterexample :
    txFood ∈ get_my_transactions 1 catFilterPct [txFood] ∧
      matchesFiltersSpec catFilterPct txFood = false := by
  constructor
  · decide
  · decide

/-- C7 (amended): membership in the query result is equivalent to
ownership plus the conjunction of the supplied filters with category
interpreted as case-insensitive LIKE on the %-wrapped value (equal to
substring matching whenever the value has no % or _), and the result is
sorted by transaction_date descending. -/
theorem C7_conjunctive_filters_and_order (uid : Nat) (f : TxFilters)
    (db : List Transaction)
    (ht : f.type? = none ∨ f.type? = some "credit" ∨ f.type? = some "debit") :
    (∀ t : Transaction, t ∈ get_my_transactions uid f db ↔
        t ∈ db ∧ t.user_id = uid ∧ matchesFiltersLike f t = true) ∧
    List.Sorted dateDesc (get_my_transactions uid f db) := by
  constructor
  · intro t
    rw [mem_get_my_transactions, matchesFiltersCode_eq_like uid f t ht]
    simp [Bool.and_eq_true, and_assoc]
  · unfold get_my_transactions
    exact List.sorted_insertionSort dateDesc _

/-- C7 witness: the amended equivalence instantiated at the "debit" type
filter and the concrete one-row table. -/
theorem C7_conjunctive_filters_witness :
    (txFood ∈ get_my_transactions 1 typeDebitFilter [txFood] ↔
        txFood ∈ [txFood] ∧ txFood.user_id = 1 ∧
          matchesFiltersLike typeDebitFilter txFood = true) ∧
    List.Sorted dateDesc (get_my_transactions 1 typeDebitFilter [txFood]) :=
  ⟨(C7_conjunctive_filters_and_order 1 typeDebitFilter [txFood]
      (Or.inr (Or.inr rfl))).1 txFood,
   (C7_conjunctive_filters_and_order 1 typeDebitFilter [txFood]
      (Or.inr (Or.inr rfl))).2⟩

/-! ## Theorems: registration -/

/-- C10: when the requested username and email each already belong to
existing users, registration fails with the duplicate-username error —
the username check is evaluated first — and the user table is returned
unchanged: no new user is created. -/
theorem C10_username_error_first (users : List UserRec) (u : UserCreate)
    (newId saltRand : Nat)
    (hu : ∃ x ∈ users, x.username = u.username)
    (he : ∃ y ∈ users, y.email = u.email) :
    register users u newId saltRand =
      { users := users, response := .error .usernameExists } := by
  have h1 : (users.find? (fun x => x.username == u.username)).isSome = true := by
    rw [List.find?_isSome]
    obtain ⟨x, hx, hxx⟩ := hu
    exact ⟨x, hx, by simp [hxx]⟩
  simp only [register, h1]
  simp

/-- C10 witness: a request duplicating the username of one stored user
and the email of another is rejected with the username error and writes
nothing. -/
theorem C10_username_error_first_witness :
    (∃ x ∈ usersBoth, x.username = dupBoth.username) ∧
    (∃ y ∈ usersBoth, y.email = dupBoth.email) ∧
    register usersBoth dupBoth 3 0 =
      { users := usersBoth, response := .error .usernameExists } :=
  ⟨by decide, by decide,
    C10_username_error_first usersBoth dupBoth 3 0 (by decide) (by decide)⟩

end ET
